import Mathlib

/-!
Shallow embedding of `src/renderer.ts` (the `Renderer` class of the
rendertron fork): the `serialize` and `screenshot` operations, modelled as
pure functions over an explicit environment describing what the browser
capability (puppeteer) does during the call — the navigation outcome, the
response events fired while the navigation is in flight, the content of the
`meta[name="render:status_code"]` element, and the serialized document.

JavaScript-specific behaviour is modelled explicitly:
  * `parseInt(s, 10)` as `jsParseInt` returning `Option Int` (`none` = NaN);
  * truthiness of `newStatusCode` (`undefined`, `NaN` and `0` are falsy);
  * object spread `{...options, type: 'jpeg', encoding: 'binary'}` as a
    function update on `String → Option String`.
-/

namespace Renderer

/-- A network response as far as this component observes it: only its
numeric status code is consulted (`response.status()`). -/
structure Response where
  status : Int
  deriving Repr, DecidableEq

/-- Outcome of `await page.goto(...)`: the promise either resolves with a
possibly-null `puppeteer.Response`, or rejects (navigation error: timeout,
DNS failure, protocol error). -/
inductive GotoResult where
  | ok : Option Response → GotoResult
  | err : GotoResult
  deriving Repr, DecidableEq

/-- `SerializedResponse` from renderer.ts: `{ status, content }`. -/
structure SerializedResponse where
  status : Int
  content : String
  deriving Repr, DecidableEq

/-- The digits-prefix value of a character list: `none` when the list does
not start with a decimal digit, otherwise the value of the longest digit
prefix (JS `parseInt` reads the longest valid prefix and ignores the rest). -/
def digitsVal (cs : List Char) : Option Nat :=
  let ds := cs.takeWhile Char.isDigit
  if ds.isEmpty then none
  else some (ds.foldl (fun a c => a * 10 + (c.toNat - 48)) 0)

/-- JavaScript `parseInt(s, 10)`: skip leading whitespace, read an optional
sign, then the longest digit prefix; `none` models NaN (no digits found). -/
def jsParseInt (s : String) : Option Int :=
  let cs := s.toList.dropWhile (fun c =>
    c = ' ' ∨ c = '\t' ∨ c = '\n' ∨ c = '\r')
  match cs with
  | '-' :: rest => (digitsVal rest).map (fun n => -(n : Int))
  | '+' :: rest => (digitsVal rest).map (fun n => (n : Int))
  | _ => (digitsVal cs).map (fun n => (n : Int))

/-- The environment of one `serialize` call: everything the browser does.
`events` are the `response` events fired on the page while the navigation is
in flight (the `page.on('response', ...)` listener sees them in order);
`gotoResult` is how `page.goto` settles; `metaContent` describes the
`meta[name="render:status_code"]` element — `none` when the element is
absent (so `page.$eval` rejects), `some a` when it is present with
`getAttribute('content')` returning `a` (`none` = attribute missing, i.e.
JS `null`); `docHTML` is `document.documentElement.outerHTML`. -/
structure SerializeEnv where
  gotoResult : GotoResult
  events : List Response
  metaContent : Option (Option String)
  docHTML : String

/-- `page.$eval('meta[name="render:status_code"]', el =>
parseInt(el.getAttribute('content') || '', 10)).catch(() => undefined)`:
`none` = the promise was rejected (element absent) and caught, yielding
`undefined`; `some v` = the parseInt result (`v = none` is NaN). -/
def metaOverride (mc : Option (Option String)) : Option (Option Int) :=
  match mc with
  | none => none
  | some attr => some (jsParseInt (attr.getD ""))

/-- Truthiness of the JS number-or-undefined `newStatusCode`: `undefined`,
`NaN` and `0` are falsy, every other number is truthy. -/
def jsTruthy : Option (Option Int) → Bool
  | some (some n) => n ≠ 0
  | _ => false

/-- The value of the mutable `response` variable of `serialize` when
execution reaches the `if (!response)` check: the listener stores the first
event seen, and the `response = await page.goto(...)` assignment then
overwrites it when the promise resolves (even with `null`); only when the
promise rejects (the `catch` branch) does the listener's value survive. -/
def respUsed (g : GotoResult) (events : List Response) : Option Response :=
  match g with
  | .ok r => r
  | .err => events.head?

/-- Outcome of one `serialize` call: the returned value together with
whether `page.close()` was awaited before returning. -/
structure SerializeOutcome where
  result : SerializedResponse
  pageClosed : Bool
  deriving Repr, DecidableEq

/-- Status-code resolution of `serialize` (renderer.ts lines 70–82): read
`response.status()`, fetch the meta override, normalize 304 to 200, then
adopt the override only when the current status is exactly 200 and the
override is truthy. -/
def resolveStatus (rawStatus : Int) (mc : Option (Option String)) : Int :=
  let newStatusCode := metaOverride mc
  let statusCode := if rawStatus = 304 then 200 else rawStatus
  if statusCode = 200 ∧ jsTruthy newStatusCode then
    match newStatusCode with
    | some (some n) => n
    | _ => statusCode
  else statusCode

/-- `Renderer.serialize` (renderer.ts lines 31–89), as a function of the
browser environment.  The result is wrapped in `Except Unit` to make the
exception channel explicit: the navigation rejection is consumed by the
`try/catch` inside, so the body itself never produces `.error`. -/
def serialize (env : SerializeEnv) : Except Unit SerializeOutcome :=
  let response := respUsed env.gotoResult env.events
  match response with
  | none => .ok { result := { status := 400, content := "" }, pageClosed := true }
  | some r =>
      .ok { result := { status := resolveStatus r.status env.metaContent
                       , content := env.docHTML }
          , pageClosed := true }

/-- The `type` discriminant of `ScreenshotError` (renderer.ts line 139). -/
inductive ErrorType where
  | Forbidden : ErrorType
  | NoResponse : ErrorType
  deriving Repr, DecidableEq

/-- `ScreenshotError`: a tagged error carrying its `type` discriminant. -/
structure ScreenshotError where
  type : ErrorType
  deriving Repr, DecidableEq

/-- A JS options object, as a partial map from keys to values. -/
def JsObj : Type := String → Option String

/-- `{ ...options, type: 'jpeg', encoding: 'binary' }` (renderer.ts lines
126–130): spread the caller's bag, then force the two keys. -/
def mergeScreenshotOptions (options : JsObj) : JsObj :=
  fun k =>
    if k = "type" then some "jpeg"
    else if k = "encoding" then some "binary"
    else options k

/-- The environment of one `screenshot` call.  `events` are the response
events fired on the page during navigation; `screenshot` registers no
listener for them, so the code never reads this field.  `capture` is the
underlying `page.screenshot` capability, from merged options to the binary
buffer it produces. -/
structure ScreenshotEnv where
  gotoResult : GotoResult
  events : List Response
  capture : JsObj → List Nat

/-- Outcome of one `screenshot` call: the returned buffer or raised error,
the options bag the capture primitive was actually invoked with (if it was),
and whether `page.close()` was awaited before the call ended. -/
structure ScreenshotOutcome where
  result : Except ScreenshotError (List Nat)
  captureCalledWith : Option JsObj
  pageClosed : Bool

/-- `Renderer.screenshot` (renderer.ts lines 91–136), as a function of the
browser environment and the caller's options bag.  No response listener is
registered, so `response` is exactly what `page.goto` resolved with; when it
is absent, `ScreenshotError('NoResponse')` is thrown without closing the
page. -/
def screenshot (env : ScreenshotEnv) (options : JsObj) : ScreenshotOutcome :=
  match env.gotoResult with
  | .ok (some _) =>
      let screenshotOptions := mergeScreenshotOptions options
      { result := .ok (env.capture screenshotOptions)
      , captureCalledWith := some screenshotOptions
      , pageClosed := true }
  | .ok none =>
      { result := .error { type := .NoResponse }
      , captureCalledWith := none
      , pageClosed := false }
  | .err =>
      { result := .error { type := .NoResponse }
      , captureCalledWith := none
      , pageClosed := false }

/-- A response used by `serialize` behaves the same whether it came from the
navigation promise or from the event listener: unfolding helper. -/
theorem serialize_of_respUsed (env : SerializeEnv) (r : Response)
    (h : respUsed env.gotoResult env.events = some r) :
    serialize env =
      .ok { result := { status := resolveStatus r.status env.metaContent
                       , content := env.docHTML }
          , pageClosed := true } := by
  simp only [serialize, h]

/-- Claim C1, as frozen, fails on the code: with raw status 200 and a meta
tag whose content `"0"` is parseable as the integer 0, the code keeps status
200 — the parsed override 0 is falsy in JavaScript and is not adopted, so
the returned status does not equal the parsed override value. -/
theorem c1_counterexample :
    jsParseInt "0" = some 0
    ∧ serialize { gotoResult := GotoResult.ok (some { status := 200 })
                , events := []
                , metaContent := some (some "0")
                , docHTML := "d" }
        = .ok { result := { status := 200, content := "d" }, pageClosed := true }
    ∧ (200 : Int) ≠ 0 := by
  refine ⟨by decide, rfl, by decide⟩

/-- Claim C1 (amended): when the used response's raw status is 200, or 304
normalized to 200, and the meta tag content parses to a *nonzero* integer
`n`, the returned status is `n`; when the raw status is neither 200 nor 304,
the returned status is the raw status and any override is ignored. -/
theorem c1_status_override (env : SerializeEnv) (r : Response) (n : Int)
    (hresp : respUsed env.gotoResult env.events = some r) :
    ((r.status = 200 ∨ r.status = 304) →
      metaOverride env.metaContent = some (some n) → n ≠ 0 →
      serialize env =
        .ok { result := { status := n, content := env.docHTML }, pageClosed := true })
    ∧ (r.status ≠ 200 → r.status ≠ 304 →
      serialize env =
        .ok { result := { status := r.status, content := env.docHTML }
            , pageClosed := true }) := by
  constructor
  · intro hst hm hn
    rw [serialize_of_respUsed env r hresp]
    rcases hst with h | h <;>
      simp [resolveStatus, h, hm, jsTruthy, hn]
  · intro h1 h2
    rw [serialize_of_respUsed env r hresp]
    simp [resolveStatus, h1, h2]

/-- Witness for C1 (amended): status 304, override `"404"` → returned 404;
status 500 with override present → returned 500. -/
theorem c1_status_override_witness :
    serialize { gotoResult := GotoResult.ok (some { status := 304 })
              , events := []
              , metaContent := some (some "404")
              , docHTML := "d" }
      = .ok { result := { status := 404, content := "d" }, pageClosed := true }
    ∧ serialize { gotoResult := GotoResult.ok (some { status := 500 })
                , events := []
                , metaContent := some (some "404")
                , docHTML := "d" }
      = .ok { result := { status := 500, content := "d" }, pageClosed := true } :=
  ⟨(c1_status_override
      { gotoResult := GotoResult.ok (some { status := 304 })
      , events := []
      , metaContent := some (some "404")
      , docHTML := "d" } { status := 304 } 404 rfl).1
      (Or.inr rfl) (by decide) (by decide),
   (c1_status_override
      { gotoResult := GotoResult.ok (some { status := 500 })
      , events := []
      , metaContent := some (some "404")
      , docHTML := "d" } { status := 500 } 404 rfl).2
      (by decide) (by decide)⟩

/-- Claim C2: when navigation fails (the goto promise rejects) and no
response event was ever observed, `serialize` closes the page and returns
exactly `{status := 400, content := ""}`, and `screenshot` raises a
`ScreenshotError` instead of returning a degraded buffer. -/
theorem c2_nav_failure (env : SerializeEnv) (senv : ScreenshotEnv)
    (options : JsObj)
    (h1 : env.gotoResult = GotoResult.err) (h2 : env.events = [])
    (h3 : senv.gotoResult = GotoResult.err) (_h4 : senv.events = []) :
    serialize env =
      .ok { result := { status := 400, content := "" }, pageClosed := true }
    ∧ (screenshot senv options).result = .error { type := ErrorType.NoResponse } := by
  constructor
  · simp [serialize, respUsed, h1, h2]
  · simp [screenshot, h3]

/-- Witness for C2 at the concrete failing environments. -/
theorem c2_nav_failure_witness :
    serialize { gotoResult := GotoResult.err, events := []
              , metaContent := none, docHTML := "" }
      = .ok { result := { status := 400, content := "" }, pageClosed := true }
    ∧ (screenshot { gotoResult := GotoResult.err, events := []
                  , capture := fun _ => [] } (fun _ => none)).result
      = .error { type := ErrorType.NoResponse } :=
  c2_nav_failure
    { gotoResult := GotoResult.err, events := [], metaContent := none, docHTML := "" }
    { gotoResult := GotoResult.err, events := [], capture := fun _ => [] }
    (fun _ => none) rfl rfl rfl rfl

/-- Claim C3, as frozen, fails on the code: when the navigation resolves
with no response (`page.goto` returns null) while the listener has already
captured a response with status 200, the assignment
`response = await page.goto(...)` overwrites the captured response with
null, so `serialize` takes the no-response 400 path instead of using the
listener's response. -/
theorem c3_counterexample :
    serialize { gotoResult := GotoResult.ok none
              , events := [{ status := 200 }]
              , metaContent := none
              , docHTML := "d" }
      = .ok { result := { status := 400, content := "" }, pageClosed := true }
    ∧ List.head? [({ status := 200 } : Response)] = some { status := 200 } :=
  ⟨rfl, rfl⟩

/-- Claim C3 (amended): the response used is the navigation call's own
response whenever the navigation resolves — even when it resolves with no
response, in which case the listener's capture is overwritten and the
400 path is taken; only when the navigation rejects does `serialize` behave
as if the navigation had resolved with the listener's earliest captured
response. -/
theorem c3_response_selection (env : SerializeEnv) :
    (∀ r, env.gotoResult = GotoResult.ok (some r) →
      serialize env =
        .ok { result := { status := resolveStatus r.status env.metaContent
                         , content := env.docHTML }
            , pageClosed := true })
    ∧ (env.gotoResult = GotoResult.err →
      serialize env = serialize { env with gotoResult := GotoResult.ok env.events.head? })
    ∧ (env.gotoResult = GotoResult.ok none →
      serialize env =
        .ok { result := { status := 400, content := "" }, pageClosed := true }) := by
  refine ⟨?_, ?_, ?_⟩
  · intro r h
    exact serialize_of_respUsed env r (by simp [respUsed, h])
  · intro h
    simp [serialize, respUsed, h]
  · intro h
    simp [serialize, respUsed, h]

/-- Witness for C3 (amended): navigation resolves with a 304 response while
the listener captured a 500 response first — the navigation's own response
wins; navigation rejects with a captured 500 response — the listener's
response is used. -/
theorem c3_response_selection_witness :
    serialize { gotoResult := GotoResult.ok (some { status := 304 })
              , events := [{ status := 500 }]
              , metaContent := none
              , docHTML := "d" }
      = .ok { result := { status := 200, content := "d" }, pageClosed := true }
    ∧ serialize { gotoResult := GotoResult.err
                , events := [{ status := 500 }]
                , metaContent := none
                , docHTML := "d" }
      = serialize { gotoResult := GotoResult.ok (some { status := 500 })
                  , events := [{ status := 500 }]
                  , metaContent := none
                  , docHTML := "d" } :=
  ⟨(c3_response_selection
      { gotoResult := GotoResult.ok (some { status := 304 })
      , events := [{ status := 500 }]
      , metaContent := none
      , docHTML := "d" }).1 { status := 304 } rfl,
   (c3_response_selection
      { gotoResult := GotoResult.err
      , events := [{ status := 500 }]
      , metaContent := none
      , docHTML := "d" }).2.1 rfl⟩

/-- Claim C4: on every execution path of `serialize` — successful render,
navigation error, and the no-response failure path — the page opened at the
start of the call is closed before `serialize` returns. -/
theorem c4_page_always_closed (env : SerializeEnv) :
    ∃ out : SerializeOutcome, serialize env = .ok out ∧ out.pageClosed = true := by
  unfold serialize
  cases respUsed env.gotoResult env.events <;> exact ⟨_, rfl, rfl⟩

/-- Claim C5: `screenshot` closes its page before returning on the success
path, and on the `NoResponse` failure path the page is not closed before the
error is raised. -/
theorem c5_screenshot_page_close (env : ScreenshotEnv) (options : JsObj) :
    (∀ r, env.gotoResult = GotoResult.ok (some r) →
      (screenshot env options).pageClosed = true)
    ∧ (∀ e, (screenshot env options).result = .error e →
      (screenshot env options).pageClosed = false) := by
  constructor
  · intro r h
    simp [screenshot, h]
  · intro e h
    cases hg : env.gotoResult with
    | ok o =>
        cases o with
        | none => simp [screenshot, hg]
        | some r => simp [screenshot, hg] at h
    | err => simp [screenshot, hg]

/-- Witness for C5: success path closes the page, failure path does not. -/
theorem c5_screenshot_page_close_witness :
    (screenshot { gotoResult := GotoResult.ok (some { status := 200 })
                , events := [], capture := fun _ => [] } (fun _ => none)).pageClosed = true
    ∧ (screenshot { gotoResult := GotoResult.err
                  , events := [], capture := fun _ => [] } (fun _ => none)).pageClosed = false :=
  ⟨(c5_screenshot_page_close
      { gotoResult := GotoResult.ok (some { status := 200 })
      , events := [], capture := fun _ => [] } (fun _ => none)).1 { status := 200 } rfl,
   (c5_screenshot_page_close
      { gotoResult := GotoResult.err
      , events := [], capture := fun _ => [] } (fun _ => none)).2
      { type := ErrorType.NoResponse } rfl⟩

/-- Claim C6: `serialize` never raises to its caller — for every
environment, including navigation rejection, a missing response, and an
absent or unparsable override meta tag, it returns a `SerializedResponse`
value through the `.ok` channel. -/
theorem c6_serialize_never_raises (env : SerializeEnv) :
    ∃ out : SerializeOutcome, serialize env = Except.ok out := by
  unfold serialize
  cases respUsed env.gotoResult env.events <;> exact ⟨_, rfl⟩

/-- Claim C7: for a successful navigation with no override meta tag present
(the `$eval` rejects), the returned status is the raw response status,
except that 304 is returned as 200; the content is the serialized document. -/
theorem c7_no_override (env : SerializeEnv) (r : Response)
    (h : env.gotoResult = GotoResult.ok (some r)) (hm : env.metaContent = none) :
    serialize env =
      .ok { result := { status := if r.status = 304 then 200 else r.status
                       , content := env.docHTML }
          , pageClosed := true } := by
  rw [serialize_of_respUsed env r (by simp [respUsed, h])]
  simp [resolveStatus, hm, metaOverride, jsTruthy]

/-- Witness for C7: raw 304 is returned as 200; raw 200 stays 200. -/
theorem c7_no_override_witness :
    serialize { gotoResult := GotoResult.ok (some { status := 304 })
              , events := [], metaContent := none, docHTML := "d" }
      = .ok { result := { status := 200, content := "d" }, pageClosed := true }
    ∧ serialize { gotoResult := GotoResult.ok (some { status := 201 })
                , events := [], metaContent := none, docHTML := "d" }
      = .ok { result := { status := 201, content := "d" }, pageClosed := true } := by
  constructor
  · have h := c7_no_override
      { gotoResult := GotoResult.ok (some { status := 304 })
      , events := [], metaContent := none, docHTML := "d" } { status := 304 } rfl rfl
    simpa using h
  · have h := c7_no_override
      { gotoResult := GotoResult.ok (some { status := 201 })
      , events := [], metaContent := none, docHTML := "d" } { status := 201 } rfl rfl
    simpa using h

/-- Claim C8: the capture primitive is always invoked with `type` forced to
`jpeg` and `encoding` forced to `binary`, every other caller-supplied key
passed through unchanged; the error raised on the no-response path is a
`ScreenshotError` whose discriminant is `NoResponse`, one of the two
recognized values `Forbidden` and `NoResponse`. -/
theorem c8_screenshot_options (env : ScreenshotEnv) (options : JsObj) :
    (∀ o, (screenshot env options).captureCalledWith = some o →
      o "type" = some "jpeg" ∧ o "encoding" = some "binary"
      ∧ ∀ k, k ≠ "type" → k ≠ "encoding" → o k = options k)
    ∧ (∀ e : ScreenshotError, (screenshot env options).result = .error e →
      e.type = ErrorType.NoResponse)
    ∧ (∀ t : ErrorType, t = ErrorType.Forbidden ∨ t = ErrorType.NoResponse) := by
  refine ⟨?_, ?_, ?_⟩
  · intro o ho
    cases hg : env.gotoResult with
    | ok r =>
        cases r with
        | none => simp [screenshot, hg] at ho
        | some resp =>
            simp only [screenshot, hg, Option.some.injEq] at ho
            subst ho
            refine ⟨rfl, rfl, ?_⟩
            intro k hk1 hk2
            simp [mergeScreenshotOptions, hk1, hk2]
    | err => simp [screenshot, hg] at ho
  · intro e he
    cases hg : env.gotoResult with
    | ok r =>
        cases r with
        | none =>
            simp only [screenshot, hg, Except.error.injEq] at he
            rw [← he]
        | some resp => simp [screenshot, hg] at he
    | err =>
        simp only [screenshot, hg, Except.error.injEq] at he
        rw [← he]
  · intro t
    cases t
    · exact Or.inl rfl
    · exact Or.inr rfl

/-- Witness for C8: a caller bag that itself sets `type` and `quality` —
`type` is overridden to `jpeg`, `encoding` forced, `quality` passed through;
the no-response error carries the `NoResponse` discriminant. -/
theorem c8_screenshot_options_witness :
    (let o := mergeScreenshotOptions
        (fun k => if k = "type" then some "png"
                  else if k = "quality" then some "80" else none);
      o "type" = some "jpeg" ∧ o "encoding" = some "binary"
      ∧ o "quality" = some "80")
    ∧ ({ type := ErrorType.NoResponse } : ScreenshotError).type = ErrorType.NoResponse := by
  have h := c8_screenshot_options
    { gotoResult := GotoResult.ok (some { status := 200 })
    , events := []
    , capture := fun _ => [] }
    (fun k => if k = "type" then some "png"
              else if k = "quality" then some "80" else none)
  have h1 := h.1 (mergeScreenshotOptions
    (fun k => if k = "type" then some "png"
              else if k = "quality" then some "80" else none)) rfl
  have h2 := h.2.1 { type := ErrorType.NoResponse }
  exact ⟨⟨h1.1, h1.2.1, h1.2.2 "quality" (by decide) (by decide)⟩, rfl⟩

/-- Claim C9: with transport status 200 and the meta element present, the
override is adopted only when the parsed value is truthy — content parsing
to NaN or to 0 is silently ignored — and no range validation is applied:
any nonzero parsed integer, negative or outside the HTTP range, becomes the
returned status as-is. -/
theorem c9_truthy_override (env : SerializeEnv) (r : Response) (s : String)
    (hresp : respUsed env.gotoResult env.events = some r)
    (hs : r.status = 200) (hm : env.metaContent = some (some s)) :
    ((jsParseInt s = none ∨ jsParseInt s = some 0) →
      serialize env =
        .ok { result := { status := 200, content := env.docHTML }, pageClosed := true })
    ∧ (∀ n : Int, jsParseInt s = some n → n ≠ 0 →
      serialize env =
        .ok { result := { status := n, content := env.docHTML }, pageClosed := true }) := by
  constructor
  · intro hp
    rw [serialize_of_respUsed env r hresp]
    rcases hp with h | h <;>
      simp [resolveStatus, hs, hm, metaOverride, jsTruthy, h]
  · intro n hn hnz
    rw [serialize_of_respUsed env r hresp]
    simp [resolveStatus, hs, hm, metaOverride, jsTruthy, hn, hnz]

/-- Witness for C9: content `"0"` is ignored (status stays 200), content
`"-7"` becomes the returned status as-is. -/
theorem c9_truthy_override_witness :
    serialize { gotoResult := GotoResult.ok (some { status := 200 })
              , events := [], metaContent := some (some "0"), docHTML := "d" }
      = .ok { result := { status := 200, content := "d" }, pageClosed := true }
    ∧ serialize { gotoResult := GotoResult.ok (some { status := 200 })
                , events := [], metaContent := some (some "-7"), docHTML := "d" }
      = .ok { result := { status := -7, content := "d" }, pageClosed := true } :=
  ⟨(c9_truthy_override
      { gotoResult := GotoResult.ok (some { status := 200 })
      , events := [], metaContent := some (some "0"), docHTML := "d" }
      { status := 200 } "0" rfl rfl rfl).1 (Or.inr (by decide)),
   (c9_truthy_override
      { gotoResult := GotoResult.ok (some { status := 200 })
      , events := [], metaContent := some (some "-7"), docHTML := "d" }
      { status := 200 } "-7" rfl rfl rfl).2 (-7) (by decide) (by decide)⟩

/-- Claim C10: `screenshot` registers no response listener, so its outcome
does not depend on the response events observed on the page, and whenever
the navigation rejects or resolves without a response a `NoResponse` error
is raised even if response events were observed — asymmetric with
`serialize`'s listener fallback. -/
theorem c10_screenshot_ignores_events (env : ScreenshotEnv) (options : JsObj) :
    ((env.gotoResult = GotoResult.err ∨ env.gotoResult = GotoResult.ok none) →
      (screenshot env options).result = .error { type := ErrorType.NoResponse })
    ∧ (∀ es, screenshot { env with events := es } options = screenshot env options) := by
  constructor
  · intro h
    rcases h with h | h <;> simp [screenshot, h]
  · intro es
    cases hg : env.gotoResult with
    | ok r => cases r <;> simp [screenshot, hg]
    | err => simp [screenshot, hg]

/-- Witness for C10: navigation rejects while a 200 response event was
observed on the page — `screenshot` still raises `NoResponse`. -/
theorem c10_screenshot_ignores_events_witness :
    (screenshot { gotoResult := GotoResult.err
                , events := [{ status := 200 }]
                , capture := fun _ => [] } (fun _ => none)).result
      = .error { type := ErrorType.NoResponse } :=
  (c10_screenshot_ignores_events
    { gotoResult := GotoResult.err
    , events := [{ status := 200 }]
    , capture := fun _ => [] } (fun _ => none)).1 (Or.inl rfl)

end Renderer
